import Mathlib

/-!
Verification of the PulseStream-Connect InstructionsModal component
(src/components/InstructionsModal.tsx, with the earlier revision kept as
src/unnamed/part_000).

The component renders shell-command instructions for a server/client pair
and owns one piece of behaviour worth modelling: the copy-to-clipboard
control of a CodeBlock, a timed boolean flag ("copied") driven by the
clipboard promise callback and a 2000 ms setTimeout. We embed:

  * the Connection record and the command template strings rendered by
    InstructionsModal;
  * the CodeBlock state machine: its useState(false) initial state, the
    handleCopy callback (clipboard write issuance and the then-callback
    that sets copied and schedules a reset), and the timeout callback;
  * a timed-trace semantics: events carry a millisecond timestamp, reset
    events fire at exactly the scheduled fire time, and the source code
    never cancels a scheduled reset (there is no clearTimeout and no
    useEffect cleanup anywhere in CodeBlock);
  * the click-propagation structure of the modal (backdrop onClick versus
    the content panel handler that calls stopPropagation).
-/

namespace PulseStream

/-- The Connection record consumed by the modal: display name plus the two
IP addresses (src/types, as used by InstructionsModal). -/
structure Connection where
  name : String
  serverIp : String
  clientIp : String
deriving Repr, DecidableEq

/-- The 2000 in setTimeout(() => setCopied(false), 2000)
(InstructionsModal.tsx line 20). -/
def timeoutMs : Nat := 2000

/-- State owned by one CodeBlock instance: the copied flag from
useState(false), plus the multiset of fire times of the setTimeout resets
that have been scheduled and have not yet fired. The source discards the
setTimeout handle and has no cleanup, so nothing is ever removed from this
list except by the timer itself firing. -/
structure CBState where
  copied : Bool
  pendingResets : List Nat
deriving Repr, DecidableEq

/-- useState(false): a CodeBlock mounts with copied = false and no pending
reset timer. -/
def initialState : CBState := { copied := false, pendingResets := [] }

/-- The then-callback of navigator.clipboard.writeText (lines 18-21): on a
resolved write it runs setCopied(true) and setTimeout(() => setCopied(false), 2000),
scheduling a reset for now + 2000 without touching any earlier timer. -/
def onCopyResolved (now : Nat) (s : CBState) : CBState :=
  { copied := true, pendingResets := s.pendingResets ++ [now + timeoutMs] }

/-- The timeout callback () => setCopied(false) firing at its scheduled
time: sets copied to false and consumes that one pending entry. -/
def onResetFired (fireTime : Nat) (s : CBState) : CBState :=
  { copied := false, pendingResets := s.pendingResets.erase fireTime }

/-- The clipboard writes issued by one invocation of handleCopy in
InstructionsModal.tsx (lines 15-22): the guard if (!children) return makes
the empty string a no-op, otherwise exactly one writeText call with
String(children), which on a string argument is the identity. -/
def handleCopyWrites (children : String) : List String :=
  if children = "" then [] else [children]

/-- The children value a CodeBlock displays inside pre/code
(InstructionsModal.tsx lines 33-35): the string itself, unmodified. -/
def displayedText (children : String) : String := children

/-- The children argument of the part_000 revision of CodeBlock, which may
be a single string or an array of strings. -/
inductive ReactText where
  | str (s : String)
  | arr (xs : List String)
deriving Repr, DecidableEq

/-- textToCopy in the part_000 revision (line 15):
Array.isArray(children) ? children.join(backslash-n) : String(children). -/
def legacyTextToCopy : ReactText → String
  | ReactText.str s => s
  | ReactText.arr xs => String.intercalate "\n" xs

/-- The clipboard writes issued by one invocation of the part_000 handleCopy
(lines 14-19): no emptiness guard, always exactly one writeText call. -/
def handleCopyWritesLegacy (children : ReactText) : List String :=
  [legacyTextToCopy children]

/-- State effect of one handleCopy invocation at time now whose clipboard
promise resolves (writeSucceeds = true) or rejects (writeSucceeds = false).
The empty-children guard returns before writeText; a rejected promise never
runs the then-callback (there is no catch handler), so the state is
untouched. -/
def handleCopyStep (children : String) (writeSucceeds : Bool) (now : Nat)
    (s : CBState) : CBState :=
  if children = "" then s
  else if writeSucceeds then onCopyResolved now s
  else s

/-- Events observable by one CodeBlock instance: a copy click whose
clipboard promise resolves (ok = true) or rejects (ok = false), and a
scheduled reset timer firing. -/
inductive CBEvent where
  | copy (ok : Bool)
  | reset
deriving Repr, DecidableEq

/-- One timed event applied to the state. -/
def stepAt (children : String) (s : CBState) (e : Nat × CBEvent) : CBState :=
  match e.2 with
  | CBEvent.copy ok => handleCopyStep children ok e.1 s
  | CBEvent.reset => onResetFired e.1 s

/-- Run a timed event list from the mount state. -/
def run (children : String) (events : List (Nat × CBEvent)) : CBState :=
  events.foldl (stepAt children) initialState

/-- Validity of a timed trace: events are processed in time order, no
scheduled reset is overdue when another event happens, and a reset event
occurs only at a time that is actually pending. This captures that
setTimeout fires at exactly its scheduled delay. -/
def traceOk (children : String) : CBState → List (Nat × CBEvent) → Bool
  | _, [] => true
  | s, e :: rest =>
    s.pendingResets.all (fun f => e.1 ≤ f) &&
    (match e.2 with
     | CBEvent.copy _ => true
     | CBEvent.reset => s.pendingResets.contains e.1) &&
    traceOk children (stepAt children s e) rest

/-- The events of a schedule that have happened by time t. -/
def eventsUpTo (sched : List (Nat × CBEvent)) (t : Nat) : List (Nat × CBEvent) :=
  sched.filter (fun e => e.1 ≤ t)

/-- The state of the instance at time t under a given full schedule. -/
def stateAt (children : String) (sched : List (Nat × CBEvent)) (t : Nat) : CBState :=
  run children (eventsUpTo sched t)

/-- Full schedule generated by a single successful copy click at t0: the
click, then the reset it schedules firing at exactly t0 + 2000. -/
def singleCopySchedule (t0 : Nat) : List (Nat × CBEvent) :=
  [(t0, CBEvent.copy true), (t0 + timeoutMs, CBEvent.reset)]

/-- Full schedule generated by successful copy clicks at t0 and t1 with
t0 ≤ t1 < t0 + 2000: both resets stay pending (the code holds no timer
handle and never calls clearTimeout), so both fire, at t0 + 2000 and at
t1 + 2000. -/
def doubleCopySchedule (t0 t1 : Nat) : List (Nat × CBEvent) :=
  [(t0, CBEvent.copy true), (t1, CBEvent.copy true),
   (t0 + timeoutMs, CBEvent.reset), (t1 + timeoutMs, CBEvent.reset)]

/-- Timers cancelled when a CodeBlock unmounts: the component registers no
useEffect cleanup and discards the setTimeout handle (lines 12-38 contain
no clearTimeout), so nothing is cancelled. -/
def timersCanceledOnUnmount (_s : CBState) : List Nat :=
  []

/-- The button label (line 31): copied ? "Copied!" : ClipboardIcon. The
icon case is rendered as a placeholder name here. -/
def buttonLabel (s : CBState) : String :=
  if s.copied then "Copied!" else "ClipboardIcon"

/-! Command templates rendered by InstructionsModal
(InstructionsModal.tsx lines 86-180). Each InstructionStep with a command
prop mounts one CodeBlock holding exactly that string (line 63). -/

/-- Server step 1 command (line 89). -/
def serverStep1Command : String := "firewall-cmd --get-default-zone"

/-- Server step 2 command (line 100). -/
def serverStep2Command : String :=
  "sudo firewall-cmd --zone=$(firewall-cmd --get-default-zone) --add-port=4713/tcp --permanent"

/-- Server step 3 command (line 111). -/
def serverStep3Command : String :=
  "sudo firewall-cmd --reload && sudo firewall-cmd --zone=$(firewall-cmd --get-default-zone) --list-ports"

/-- Server step 4 command (line 122), a template literal substituting
connection.clientIp verbatim. -/
def serverStep4Command (c : Connection) : String :=
  "pactl load-module module-native-protocol-tcp auth-ip-acl=127.0.0.1;" ++ c.clientIp

/-- Client step 1 command (line 144), substituting connection.serverIp. -/
def clientStep1Command (c : Connection) : String :=
  "nc -zv " ++ c.serverIp ++ " 4713"

/-- Client step 2 command (line 162), substituting connection.serverIp. -/
def clientStep2Command (c : Connection) : String :=
  "export PULSE_SERVER=tcp:" ++ c.serverIp

/-- The URL in the client step 3 command (line 173). -/
def mpvUrl : String := "https://www.youtube.com/watch?v=dQw4w9WgXcQ"

/-- Client step 3 command (line 173). -/
def clientStep3Command (_c : Connection) : String :=
  "mpv --ao=pulse \"" ++ mpvUrl ++ "\""

/-- The texts of the command CodeBlocks in the server section, in render
order (lines 86-133). -/
def serverCommandBlocks (c : Connection) : List String :=
  [serverStep1Command, serverStep2Command, serverStep3Command, serverStep4Command c]

/-- The texts of the command CodeBlocks in the client section, in render
order (lines 141-180). -/
def clientCommandBlocks (c : Connection) : List String :=
  [clientStep1Command c, clientStep2Command c, clientStep3Command c]

/-- The concrete Connection used by the rendering claim. -/
def office : Connection :=
  { name := "Office", serverIp := "10.0.0.5", clientIp := "10.0.0.9" }

/-! Click propagation in the modal (InstructionsModal.tsx lines 72-73).
The backdrop div has onClick = onClose; the content panel div has
onClick = (e) => e.stopPropagation(). A DOM click bubbles from the target
outward through its ancestor handlers until one calls stopPropagation. -/

/-- What one onClick handler on the bubbling path does: whether it calls
e.stopPropagation() and whether it invokes the onClose callback. -/
structure ClickHandler where
  stopsPropagation : Bool
  callsOnClose : Bool
deriving Repr, DecidableEq

/-- Click targets of interest inside the rendered modal. -/
inductive ClickTarget where
  | backdrop
  | contentPanel
  | insideContent
deriving Repr, DecidableEq

/-- The onClick handlers a click on the given target bubbles through, from
target outward. A click on the backdrop itself meets only the backdrop
handler (line 72, onClose). A click on the content panel meets the panel
handler (line 73, stopPropagation) and then would meet the backdrop
handler. A click on a deeper element inside the panel, such as a copy
button, meets that element first (its handler neither stops propagation
nor closes), then the panel handler, then the backdrop handler. -/
def handlersFor : ClickTarget → List ClickHandler
  | ClickTarget.backdrop =>
    [{ stopsPropagation := false, callsOnClose := true }]
  | ClickTarget.contentPanel =>
    [{ stopsPropagation := true, callsOnClose := false },
     { stopsPropagation := false, callsOnClose := true }]
  | ClickTarget.insideContent =>
    [{ stopsPropagation := false, callsOnClose := false },
     { stopsPropagation := true, callsOnClose := false },
     { stopsPropagation := false, callsOnClose := true }]

/-- DOM bubbling: run handlers from the target outward, stopping after a
handler that calls stopPropagation; count the onClose invocations. -/
def onCloseCalls : List ClickHandler → Nat
  | [] => 0
  | h :: rest =>
    (if h.callsOnClose then 1 else 0) +
      (if h.stopsPropagation then 0 else onCloseCalls rest)

/-- Boolean check that the needle occurs as a contiguous run inside the
haystack, both given as character lists. -/
def containsRun (needle : List Char) : List Char → Bool
  | [] => needle.isEmpty
  | h :: t => needle.isPrefixOf (h :: t) || containsRun needle t

/-- Substring occurrence on strings, via the underlying character lists. -/
def strContains (hay needle : String) : Bool :=
  containsRun needle.data hay.data

/-! Helper lemmas. -/

/-- A single successful copy click at t0 generates a valid timed trace. -/
theorem singleCopySchedule_traceOk (children : String) (hne : children ≠ "")
    (t0 : Nat) :
    traceOk children initialState (singleCopySchedule t0) = true := by
  simp [traceOk, singleCopySchedule, stepAt, handleCopyStep, onCopyResolved,
    onResetFired, initialState, hne]

/-- Two successful copy clicks at t0 ≤ t1 < t0 + 2000 generate a valid timed
trace: both resets remain scheduled and both fire on time. -/
theorem doubleCopySchedule_traceOk (children : String) (hne : children ≠ "")
    (t0 t1 : Nat) (h01 : t0 ≤ t1) (h1w : t1 < t0 + timeoutMs) :
    traceOk children initialState (doubleCopySchedule t0 t1) = true := by
  simp [traceOk, doubleCopySchedule, stepAt, handleCopyStep, onCopyResolved,
    onResetFired, initialState, hne, List.erase_cons]
  omega

/-- Evolution of the copied flag under a single successful copy at t0: it is
true exactly on the half-open window from t0 to t0 + 2000. -/
theorem stateAt_singleCopy (children : String) (hne : children ≠ "")
    (t0 t : Nat) :
    (stateAt children (singleCopySchedule t0) t).copied
      = (decide (t0 ≤ t) && decide (t < t0 + timeoutMs)) := by
  by_cases h1 : t0 ≤ t
  · by_cases h2 : t0 + timeoutMs ≤ t
    · simp [stateAt, eventsUpTo, singleCopySchedule, run, stepAt,
        handleCopyStep, onCopyResolved, onResetFired, initialState, hne,
        h1, h2, Nat.not_lt.mpr h2]
    · simp [stateAt, eventsUpTo, singleCopySchedule, run, stepAt,
        handleCopyStep, onCopyResolved, initialState, hne, h1, h2,
        Nat.lt_of_not_le h2]
  · have h2 : ¬ t0 + timeoutMs ≤ t := by omega
    simp [stateAt, eventsUpTo, singleCopySchedule, run, initialState, h1, h2]

/-! Claim theorems. -/

/-- C1: for every non-empty command string S displayed in a CodeBlock, the
copy action issues exactly one clipboard write whose payload is exactly the
displayed text S, with no trimming or escaping. This holds for the current
handleCopy and for the part_000 revision applied to a string child. -/
theorem copy_writes_exact_text (s : String) (h : s ≠ "") :
    handleCopyWrites s = [displayedText s] ∧
    handleCopyWritesLegacy (ReactText.str s) = [displayedText s] := by
  constructor
  · simp [handleCopyWrites, displayedText, h]
  · simp [handleCopyWritesLegacy, legacyTextToCopy, displayedText]

/-- Witness for C1 at the server step 1 command. -/
theorem copy_writes_exact_text_witness :
    serverStep1Command ≠ "" ∧
    handleCopyWrites serverStep1Command = [displayedText serverStep1Command] ∧
    handleCopyWritesLegacy (ReactText.str serverStep1Command)
      = [displayedText serverStep1Command] := by
  have h := copy_writes_exact_text serverStep1Command (by decide)
  exact ⟨by decide, h.1, h.2⟩

/-- C2 counterexample: with successful copy clicks at 0 ms and 1000 ms, the
claim says the label stays "Copied!" until 3000 ms (2000 ms after the last
click). In the code nothing cancels the first timer, which fires at 2000 ms
and sets copied to false, so copied is already false at 2000 ms. -/
theorem rapid_recopy_supersession_cex :
    (stateAt serverStep1Command (doubleCopySchedule 0 1000) 1999).copied = true ∧
    (stateAt serverStep1Command (doubleCopySchedule 0 1000) 2000).copied = false ∧
    1000 + timeoutMs = 3000 := by
  refine ⟨?_, ?_, by decide⟩ <;> decide

/-- C2 amended: the prior pending reset is neither canceled nor superseded.
After a second successful copy click within the window, the label reverts
2000 ms after the FIRST click: for clicks at t0 ≤ t1 < t0 + 2000, copied at
time t is true exactly on the window from t0 to t0 + 2000. -/
theorem rapid_recopy_resets_after_first (children : String) (hne : children ≠ "")
    (t0 t1 t : Nat) (h01 : t0 ≤ t1) (h1w : t1 < t0 + timeoutMs) :
    (stateAt children (doubleCopySchedule t0 t1) t).copied
      = (decide (t0 ≤ t) && decide (t < t0 + timeoutMs)) := by
  by_cases h1 : t0 ≤ t
  · by_cases h2 : t1 ≤ t
    · by_cases h3 : t0 + timeoutMs ≤ t
      · by_cases h4 : t1 + timeoutMs ≤ t
        · simp [stateAt, eventsUpTo, doubleCopySchedule, run, stepAt,
            handleCopyStep, onCopyResolved, onResetFired, initialState, hne,
            h1, h2, h3, h4, Nat.not_lt.mpr h3]
        · simp [stateAt, eventsUpTo, doubleCopySchedule, run, stepAt,
            handleCopyStep, onCopyResolved, onResetFired, initialState, hne,
            h1, h2, h3, h4, Nat.not_lt.mpr h3]
      · have h4 : ¬ t1 + timeoutMs ≤ t := by omega
        simp [stateAt, eventsUpTo, doubleCopySchedule, run, stepAt,
          handleCopyStep, onCopyResolved, initialState, hne, h1, h2, h3, h4,
          Nat.lt_of_not_le h3]
    · have h3 : ¬ t0 + timeoutMs ≤ t := by omega
      have h4 : ¬ t1 + timeoutMs ≤ t := by omega
      simp [stateAt, eventsUpTo, doubleCopySchedule, run, stepAt,
        handleCopyStep, onCopyResolved, initialState, hne, h1, h2, h3, h4,
        Nat.lt_of_not_le h3]
  · have h2 : ¬ t1 ≤ t := by omega
    have h3 : ¬ t0 + timeoutMs ≤ t := by omega
    have h4 : ¬ t1 + timeoutMs ≤ t := by omega
    simp [stateAt, eventsUpTo, doubleCopySchedule, run, initialState,
      h1, h2, h3, h4]

/-- Witness for the amended C2 at clicks 0 and 1000, observed at 2500 ms:
copied is already false there, 1500 ms after the last click. -/
theorem rapid_recopy_resets_after_first_witness :
    serverStep1Command ≠ "" ∧ 0 ≤ 1000 ∧ 1000 < 0 + timeoutMs ∧
    (stateAt serverStep1Command (doubleCopySchedule 0 1000) 2500).copied
      = false := by
  refine ⟨by decide, by decide, by decide, ?_⟩
  have h := rapid_recopy_resets_after_first serverStep1Command (by decide)
    0 1000 2500 (by decide) (by decide)
  simpa [timeoutMs] using h

/-- C3 at the failing input (successful copy at 0 ms, unmount at 1000 ms):
the reset scheduled for 2000 ms is still pending at unmount, the cleanup
set is empty because CodeBlock registers no effect cleanup and discards the
setTimeout handle, and the timer consequently fires at 2000 ms and applies
setCopied false after the instance is gone. -/
theorem unmount_pending_timer_not_canceled :
    (stateAt serverStep1Command (singleCopySchedule 0) 1000).pendingResets
      = [2000] ∧
    timersCanceledOnUnmount
      (stateAt serverStep1Command (singleCopySchedule 0) 1000) = [] ∧
    (stateAt serverStep1Command (singleCopySchedule 0) 2000).copied = false := by
  refine ⟨?_, rfl, ?_⟩ <;> decide

/-- C4: rendering with the Office connection (serverIp 10.0.0.5, clientIp
10.0.0.9) yields a client command block containing the literal substring
"nc -zv 10.0.0.5 4713" and a server command block containing the literal
substring "auth-ip-acl=127.0.0.1;10.0.0.9". -/
theorem office_render_substitutions :
    ((clientCommandBlocks office).any
      (fun s => strContains s "nc -zv 10.0.0.5 4713")) = true ∧
    ((serverCommandBlocks office).any
      (fun s => strContains s "auth-ip-acl=127.0.0.1;10.0.0.9")) = true := by
  constructor <;> decide

/-- C5: copied is false by default, becomes true immediately on a resolved
clipboard write, and under a single successful copy at t0 it is true on the
whole window up to and including t0 + 1999 and false from t0 + 2000 on. -/
theorem copyState_lifecycle (children : String) (hne : children ≠ "") :
    initialState.copied = false ∧
    (∀ now s, (handleCopyStep children true now s).copied = true) ∧
    (∀ t0 t, (stateAt children (singleCopySchedule t0) t).copied
        = (decide (t0 ≤ t) && decide (t < t0 + timeoutMs))) := by
  refine ⟨rfl, ?_, fun t0 t => stateAt_singleCopy children hne t0 t⟩
  intro now s
  simp [handleCopyStep, onCopyResolved, hne]

/-- Witness for C5: at a copy at 0 ms the label is "Copied!" immediately,
still at 1999 ms, and reverted at 2000 ms. -/
theorem copyState_lifecycle_witness :
    serverStep1Command ≠ "" ∧
    (handleCopyStep serverStep1Command true 0 initialState).copied = true ∧
    (stateAt serverStep1Command (singleCopySchedule 0) 1999).copied = true ∧
    (stateAt serverStep1Command (singleCopySchedule 0) 2000).copied = false := by
  have h := copyState_lifecycle serverStep1Command (by decide)
  refine ⟨by decide, h.2.1 0 initialState, ?_, ?_⟩
  · simpa [timeoutMs] using h.2.2 0 1999
  · simpa [timeoutMs] using h.2.2 0 2000

/-- C6: a rejected clipboard write leaves the state unchanged (copied is
never set true, no reset scheduled), the label is unchanged, and no retry
happens: one handleCopy invocation issues at most one write. -/
theorem clipboard_failure_swallowed :
    (∀ children now s, handleCopyStep children false now s = s) ∧
    (∀ children now s,
      buttonLabel (handleCopyStep children false now s) = buttonLabel s) ∧
    (∀ children, (handleCopyWrites children).length ≤ 1) := by
  refine ⟨?_, ?_, ?_⟩
  · intro children now s
    simp [handleCopyStep]
  · intro children now s
    simp [handleCopyStep]
  · intro children
    by_cases h : children = "" <;> simp [handleCopyWrites, h]

/-- C7: with empty text the copy action is a no-op: the guard returns before
writeText, so no clipboard write is issued and the state is unchanged
whatever the promise outcome would have been. -/
theorem empty_copy_noop :
    handleCopyWrites "" = [] ∧ (∀ ok now s, handleCopyStep "" ok now s = s) := by
  refine ⟨rfl, ?_⟩
  intro ok now s
  simp [handleCopyStep]

/-- C8: for every connection the client section renders command blocks
containing, with serverIp substituted verbatim, the netcat probe of port
4713, the PULSE_SERVER export, and an mpv invocation of the form
mpv --ao=pulse with a double-quoted URL. -/
theorem client_commands_substituted (c : Connection) :
    ("nc -zv " ++ c.serverIp ++ " 4713") ∈ clientCommandBlocks c ∧
    ("export PULSE_SERVER=tcp:" ++ c.serverIp) ∈ clientCommandBlocks c ∧
    ∃ url, ("mpv --ao=pulse \"" ++ url ++ "\"") ∈ clientCommandBlocks c := by
  refine ⟨?_, ?_, ⟨mpvUrl, ?_⟩⟩ <;>
    simp [clientCommandBlocks, clientStep1Command, clientStep2Command,
      clientStep3Command]

/-- C9: a click on the backdrop runs only the backdrop handler and invokes
onClose exactly once; a click on the content panel or any element inside it
is stopped by the panel handler and invokes onClose zero times. -/
theorem backdrop_click_containment :
    onCloseCalls (handlersFor ClickTarget.backdrop) = 1 ∧
    onCloseCalls (handlersFor ClickTarget.contentPanel) = 0 ∧
    onCloseCalls (handlersFor ClickTarget.insideContent) = 0 := by
  refine ⟨?_, ?_, ?_⟩ <;> decide

/-- C10: invariant over every event sequence: copied starts false, is true
only if some clipboard write previously resolved successfully on non-empty
text, the only step that turns it true is a resolved copy, the only step
that turns it false is the reset timer, and a rejected copy never changes
it. -/
theorem copied_invariant (children : String) :
    (∀ events : List (Nat × CBEvent), (run children events).copied = true →
      ∃ t, (t, CBEvent.copy true) ∈ events ∧ children ≠ "") ∧
    (∀ s e, (stepAt children s e).copied = true →
      s.copied = true ∨ e.2 = CBEvent.copy true) ∧
    (∀ s e, (stepAt children s e).copied = false →
      s.copied = false ∨ e.2 = CBEvent.reset) ∧
    initialState.copied = false ∧
    (∀ now s, (handleCopyStep children false now s).copied = s.copied) := by
  refine ⟨?_, ?_, ?_, rfl, ?_⟩
  · have key : ∀ (events : List (Nat × CBEvent)) (s : CBState),
        (events.foldl (stepAt children) s).copied = true →
        s.copied = true ∨ ∃ t, (t, CBEvent.copy true) ∈ events ∧ children ≠ "" := by
      intro events
      induction events with
      | nil => intro s hs; exact Or.inl hs
      | cons e rest ih =>
        intro s hs
        rcases ih (stepAt children s e) hs with h | ⟨t, ht, hne⟩
        · rcases e with ⟨u, ev⟩
          cases ev with
          | copy ok =>
            by_cases hch : children = ""
            · simp [stepAt, handleCopyStep, hch] at h
              exact Or.inl h
            · cases ok with
              | true =>
                exact Or.inr ⟨u, List.mem_cons_self _ _, hch⟩
              | false =>
                simp [stepAt, handleCopyStep, hch] at h
                exact Or.inl h
          | reset =>
            simp [stepAt, onResetFired] at h
        · exact Or.inr ⟨t, List.mem_cons_of_mem _ ht, hne⟩
    intro events hev
    rcases key events initialState hev with h | h
    · simp [initialState] at h
    · exact h
  · intro s e hs
    rcases e with ⟨u, ev⟩
    cases ev with
    | copy ok =>
      by_cases hch : children = ""
      · simp [stepAt, handleCopyStep, hch] at hs
        exact Or.inl hs
      · cases ok with
        | true => exact Or.inr rfl
        | false =>
          simp [stepAt, handleCopyStep, hch] at hs
          exact Or.inl hs
    | reset => simp [stepAt, onResetFired] at hs
  · intro s e hs
    rcases e with ⟨u, ev⟩
    cases ev with
    | copy ok =>
      by_cases hch : children = ""
      · simp [stepAt, handleCopyStep, hch] at hs
        exact Or.inl hs
      · cases ok with
        | true => simp [stepAt, handleCopyStep, hch, onCopyResolved] at hs
        | false =>
          simp [stepAt, handleCopyStep, hch] at hs
          exact Or.inl hs
    | reset => exact Or.inr rfl
  · intro now s
    simp [handleCopyStep]

/-- Witness for C10: the one-event trace of a resolved copy at 0 ms has
copied = true, and the invariant locates the resolved copy event in it. -/
theorem copied_invariant_witness :
    (run serverStep1Command [(0, CBEvent.copy true)]).copied = true ∧
    ∃ t, (t, CBEvent.copy true) ∈ [((0 : Nat), CBEvent.copy true)] ∧
      serverStep1Command ≠ "" :=
  ⟨by decide,
   (copied_invariant serverStep1Command).1 [(0, CBEvent.copy true)] (by decide)⟩

end PulseStream
